import Mathlib

/-!
# Shallow embedding of the banking-app frontend data-fetch orchestrator

This file embeds, in Lean 4, the client-side data-fetch orchestrator of the
banking dashboard (`src/banking_app/state/app_state.py`, with models from
`src/banking_app/models.py` and the request surface of
`src/banking_app/services/api_client.py`), and proves properties of the
embedded operations.

Embedding conventions:
* Python `float` values are modelled as `ℚ`; Python `int` as `Int`;
  `time.time()` timestamps as `ℚ` supplied by the environment.
* A JSON-ish dictionary is an association list `Dict := List (String × Val)`
  of scalar values (`Val`); Python dict-truthiness is non-emptiness.
* Each `async` orchestrator method becomes a pure function from an
  environment record (one `Except String _` result per remote call that the
  method can issue, plus the current time where the method reads the clock)
  and a pre-state to a pair of (post-state, list of issued requests).
  `asyncio.gather(..., return_exceptions=True)` never raises: each result is
  inspected with its own `Except`.
* A Python exception raised inside a `try` body (e.g. a pydantic validation
  error while building model objects) is modelled with
  `Except (AppState × String) AppState`: the error carries the state as
  already mutated when the exception was raised, and the `except` clause
  turns it into the `error_message` assignment; the `finally` clause clears
  `is_loading` on every path.
* Pydantic model construction `Model(**item)` is modelled by a strict
  `ofDict?` parser: required fields must be present with the matching scalar
  shape, optional fields default when absent (`none`/declared default), and a
  present field of the wrong shape fails the parse (modelling the raised
  validation error).  Numeric coercion subtleties of pydantic are not needed
  by any property proved here.
-/

/-- A scalar JSON-ish value as it appears inside API payload dictionaries. -/
inductive Val where
  | num (q : ℚ)
  | str (s : String)
  | vbool (b : Bool)
  | vnull
deriving Repr, DecidableEq

/-- Python truthiness of a scalar value. -/
def Val.truthy : Val → Bool
  | .num q => q ≠ 0
  | .str s => s ≠ ""
  | .vbool b => b
  | .vnull => false

/-- Numeric view of a value (Python `bool` is a numeric type; `int`/`float`
are `num`); `none` models a `TypeError` when the value is used as a number. -/
def Val.pyNum? : Val → Option ℚ
  | .num q => some q
  | .vbool b => some (if b then 1 else 0)
  | _ => none

/-- Integer-shaped value (for `int`-typed model fields). -/
def Val.asInt? : Val → Option Int
  | .num q => if q.den = 1 then some q.num else none
  | _ => none

/-- String-shaped value (for `str`-typed model fields). -/
def Val.asStr? : Val → Option String
  | .str s => some s
  | _ => none

/-- Python `str(v)` rendering, used by the dropdown-option enhancement in
`load_fraud_data` (`str(t.get("mcc"))`). -/
def Val.pyStr : Val → String
  | .num q => if q.den = 1 then toString q.num else toString q
  | .str s => s
  | .vbool b => if b then "True" else "False"
  | .vnull => "None"

/-- A JSON object / Python dict, as an association list. -/
abbrev Dict := List (String × Val)

/-- Membership test `k in d` on a Python dict. -/
def Dict.member (d : Dict) (k : String) : Bool :=
  d.any (fun p => p.1 == k)

/-- Lookup `d.get(k)`, returning `none` when the key is absent. -/
def Dict.getVal? (d : Dict) (k : String) : Option Val :=
  match d with
  | [] => none
  | (k', v) :: rest => if k' == k then some v else Dict.getVal? rest k

/-- Lookup with default, `d.get(k, dflt)`. -/
def Dict.getD (d : Dict) (k : String) (dflt : Val) : Val :=
  (d.getVal? k).getD dflt

/-- Assignment `d[k] = v`: replace the value of an existing key in place, else append. -/
def Dict.set (d : Dict) (k : String) (v : Val) : Dict :=
  match d with
  | [] => [(k, v)]
  | (k', v') :: rest =>
      if k' == k then (k', v) :: rest else (k', v') :: Dict.set rest k v

/-- Required `str` field of a pydantic model. -/
def Dict.reqStr (d : Dict) (k : String) : Option String :=
  (d.getVal? k).bind Val.asStr?

/-- Required `int` field of a pydantic model. -/
def Dict.reqInt (d : Dict) (k : String) : Option Int :=
  (d.getVal? k).bind Val.asInt?

/-- Required `float` field of a pydantic model. -/
def Dict.reqNum (d : Dict) (k : String) : Option ℚ :=
  (d.getVal? k).bind fun v => match v with | .num q => some q | _ => none

/-- An `Optional[str]` field: absent or null gives `none`; wrong shape fails. -/
def Dict.optStr (d : Dict) (k : String) : Option (Option String) :=
  match d.getVal? k with
  | none => some none
  | some .vnull => some none
  | some (.str s) => some (some s)
  | some _ => none

/-- An `Optional[int]` field. -/
def Dict.optInt (d : Dict) (k : String) : Option (Option Int) :=
  match d.getVal? k with
  | none => some none
  | some .vnull => some none
  | some v => (v.asInt?).map some

/-- An `Optional[float]` field. -/
def Dict.optNum (d : Dict) (k : String) : Option (Option ℚ) :=
  match d.getVal? k with
  | none => some none
  | some .vnull => some none
  | some (.num q) => some (some q)
  | some _ => none

/-- An `int` field with a declared default (e.g. `fraud_count: int = 0`). -/
def Dict.intD (d : Dict) (k : String) (dflt : Int) : Option Int :=
  match d.getVal? k with
  | none => some dflt
  | some v => v.asInt?

/-- A `float` field with a declared default (e.g. `avg_amount: float = 0.0`). -/
def Dict.numD (d : Dict) (k : String) (dflt : ℚ) : Option ℚ :=
  match d.getVal? k with
  | none => some dflt
  | some (.num q) => some q
  | some _ => none

/-! ## Domain models (`src/banking_app/models.py`) -/

/-- The `Transaction` pydantic model. -/
structure Transaction where
  id : String
  client_id : Int
  card_id : Option Int := none
  date : String
  amount : ℚ
  use_chip : Option String := none
  merchant_id : Option Int := none
  merchant_city : Option String := none
  merchant_state : Option String := none
  zip : Option ℚ := none
  mcc : Option Int := none
  errors : Option String := none
  isFraud : Int
deriving Repr, DecidableEq

/-- Construction `Transaction(**item)`: `none` models a raised validation error. -/
def Transaction.ofDict? (d : Dict) : Option Transaction := do
  let id ← d.reqStr "id"
  let client_id ← d.reqInt "client_id"
  let card_id ← d.optInt "card_id"
  let date ← d.reqStr "date"
  let amount ← d.reqNum "amount"
  let use_chip ← d.optStr "use_chip"
  let merchant_id ← d.optInt "merchant_id"
  let merchant_city ← d.optStr "merchant_city"
  let merchant_state ← d.optStr "merchant_state"
  let zip ← d.optNum "zip"
  let mcc ← d.optInt "mcc"
  let errors ← d.optStr "errors"
  let isFraud ← d.reqInt "isFraud"
  some { id, client_id, card_id, date, amount, use_chip, merchant_id,
         merchant_city, merchant_state, zip, mcc, errors, isFraud }

/-- The `Customer` pydantic model. -/
structure Customer where
  id : String
  transactions_count : Int
  total_amount : ℚ
  avg_amount : ℚ := 0
  fraud_count : Int := 0
deriving Repr, DecidableEq

/-- Construction `Customer(**item)`. -/
def Customer.ofDict? (d : Dict) : Option Customer := do
  let id ← d.reqStr "id"
  let transactions_count ← d.reqInt "transactions_count"
  let total_amount ← d.reqNum "total_amount"
  let avg_amount ← d.numD "avg_amount" 0
  let fraud_count ← d.intD "fraud_count" 0
  some { id, transactions_count, total_amount, avg_amount, fraud_count }

/-- The `FraudStat` pydantic model. -/
structure FraudStat where
  type : String
  total_count : Int
  fraud_count : Int
  fraud_rate : ℚ
deriving Repr, DecidableEq

/-- Construction `FraudStat(**item)`. -/
def FraudStat.ofDict? (d : Dict) : Option FraudStat := do
  let type ← d.reqStr "type"
  let total_count ← d.reqInt "total_count"
  let fraud_count ← d.reqInt "fraud_count"
  let fraud_rate ← d.reqNum "fraud_rate"
  some { type, total_count, fraud_count, fraud_rate }

/-- The `DailyStat` pydantic model. -/
structure DailyStat where
  step : String
  count : Int
  total_amount : ℚ
  fraud_count : Int
  avg_amount : ℚ := 0
deriving Repr, DecidableEq

/-- Construction `DailyStat(**item)`. -/
def DailyStat.ofDict? (d : Dict) : Option DailyStat := do
  let step ← d.reqStr "step"
  let count ← d.reqInt "count"
  let total_amount ← d.reqNum "total_amount"
  let fraud_count ← d.reqInt "fraud_count"
  let avg_amount ← d.numD "avg_amount" 0
  some { step, count, total_amount, fraud_count, avg_amount }

/-- The `TypeStat` pydantic model. -/
structure TypeStat where
  type : String
  count : Int
  total_amount : ℚ
  avg_amount : ℚ
  fraud_rate : ℚ := 0
deriving Repr, DecidableEq

/-- Construction `TypeStat(**item)`. -/
def TypeStat.ofDict? (d : Dict) : Option TypeStat := do
  let type ← d.reqStr "type"
  let count ← d.reqInt "count"
  let total_amount ← d.reqNum "total_amount"
  let avg_amount ← d.reqNum "avg_amount"
  let fraud_rate ← d.numD "fraud_rate" 0
  some { type, count, total_amount, avg_amount, fraud_rate }

/-! ## Constants (`app_state.py` module level) -/

def ITEMS_PER_PAGE : Int := 50

def CACHE_TTL_SECONDS : ℚ := 60

def TOP_CUSTOMERS_LIMIT : Int := 10

def RECENT_TRANSACTIONS_LIMIT : Int := 10

def DAILY_STATS_LIMIT : Int := 30

def AMOUNT_DISTRIBUTION_BINS : Int := 10

def US_STATES : List String :=
  ["AL", "AK", "AZ", "AR", "CA", "CO", "CT", "DE", "FL", "GA",
   "HI", "ID", "IL", "IN", "IA", "KS", "KY", "LA", "ME", "MD",
   "MA", "MI", "MN", "MS", "MO", "MT", "NE", "NV", "NH", "NJ",
   "NM", "NY", "NC", "ND", "OH", "OK", "OR", "PA", "RI", "SC",
   "SD", "TN", "TX", "UT", "VT", "VA", "WA", "WV", "WI", "WY"]

def COMMON_MCC_CODES : List String :=
  ["4111", "4814", "5200", "5300", "5311", "5411", "5541",
   "5542", "5812", "5813", "5912", "5999"]

/-! ## Application state (`AppState` fields) -/

/-- The published state of `AppState`; defaults are the class-level
initializers. `_cache_timestamps` maps a cache key to its `time.time()`
refresh instant. -/
structure AppState where
  is_loading : Bool := false
  error_message : String := ""
  cache_timestamps : List (String × ℚ) := []
  stats_overview : Dict := []
  recent_transactions : List Transaction := []
  system_health : Dict := []
  system_metadata : Dict := []
  transactions : List Transaction := []
  transaction_types : List String := []
  total_transactions : Int := 0
  current_page : Int := 1
  items_per_page : Int := ITEMS_PER_PAGE
  filter_use_chip : String := ""
  filter_is_fraud : Option Int := none
  filter_min_amount : String := ""
  filter_max_amount : String := ""
  filter_merchant_state : String := ""
  customers : List Customer := []
  top_customers : List Customer := []
  customer_profile : Dict := []
  total_customers : Int := 0
  customers_page : Int := 1
  search_customer_id : String := ""
  fraud_summary : Dict := []
  fraud_by_type : List FraudStat := []
  fraud_prediction : Dict := []
  merchant_states : List String := US_STATES
  mcc_codes : List String := COMMON_MCC_CODES
  amount_distribution : Dict := []
  stats_by_type : List TypeStat := []
  daily_stats : List DailyStat := []
deriving Repr, DecidableEq

/-- The all-defaults initial state. -/
def initState : AppState := {}

/-! ## Cache helpers -/

/-- Timestamp lookup in `_cache_timestamps`. -/
def tsLookup (ts : List (String × ℚ)) (k : String) : Option ℚ :=
  match ts with
  | [] => none
  | (k', v) :: rest => if k' == k then some v else tsLookup rest k

/-- Timestamp write (`self._cache_timestamps[cache_key] = time.time()`). -/
def tsSet (ts : List (String × ℚ)) (k : String) (v : ℚ) : List (String × ℚ) :=
  match ts with
  | [] => [(k, v)]
  | (k', v') :: rest =>
      if k' == k then (k', v) :: rest else (k', v') :: tsSet rest k v

/-- Embeds `AppState._is_cache_valid`: the key exists and its age is below TTL. -/
def is_cache_valid (s : AppState) (now : ℚ) (cache_key : String) : Bool :=
  match tsLookup s.cache_timestamps cache_key with
  | none => false
  | some t => decide (now - t < CACHE_TTL_SECONDS)

/-- Embeds `AppState._update_cache_timestamp`. -/
def update_cache_timestamp (s : AppState) (cache_key : String) (now : ℚ) :
    AppState :=
  { s with cache_timestamps := tsSet s.cache_timestamps cache_key now }

/-! ## Python numeric-string parsing

`float(text)` / `int(text)` raising `ValueError` are modelled as `Option`
parsers over plain decimal literals (`[+-]?digits`, optionally with a
fractional part for `float`); exotic accepted spellings (exponents,
`inf`/`nan`, underscores, surrounding whitespace) are not needed by any
property proved here, and every string appearing in a theorem below is
classified identically by Python and by this parser. -/

/-- Value of a digit string. -/
def digitsVal (l : List Char) : Nat :=
  l.foldl (fun a c => 10 * a + (c.toNat - 48)) 0

/-- Python `float(s)`, for plain decimal literals. -/
def pyFloat? (s : String) : Option ℚ :=
  let afterSign : (ℚ × List Char) :=
    match s.data with
    | '+' :: r => (1, r)
    | '-' :: r => (-1, r)
    | r => (1, r)
  let sign := afterSign.1
  let cs := afterSign.2
  let intPart := cs.takeWhile Char.isDigit
  let rest := cs.dropWhile Char.isDigit
  match rest with
  | [] =>
      if intPart.isEmpty then none
      else some (sign * (digitsVal intPart : ℚ))
  | '.' :: frac =>
      if frac.all Char.isDigit && !(intPart.isEmpty && frac.isEmpty) then
        some (sign * ((digitsVal intPart : ℚ) +
          (digitsVal frac : ℚ) / ((10 : ℚ) ^ frac.length)))
      else none
  | _ => none

/-- Python `int(s)`, for plain decimal integer literals. -/
def pyInt? (s : String) : Option Int :=
  let afterSign : (Int × List Char) :=
    match s.data with
    | '+' :: r => (1, r)
    | '-' :: r => (-1, r)
    | r => (1, r)
  let sign := afterSign.1
  let cs := afterSign.2
  if cs.isEmpty || !(cs.all Char.isDigit) then none
  else some (sign * (digitsVal cs : Int))

/-! ## Requests issued through the API Gateway Client

One constructor per `APIClient` call that the embedded operations can
issue, carrying the arguments the orchestrator passes. -/

/-- An element of a raw customers collection: either a bare integer
identifier or a structured record (`customers` may be `[int]` or
`[object]`). -/
inductive CItem where
  | cid (i : Int)
  | obj (d : Dict)
deriving Repr, DecidableEq

/-- A remote call issued by the orchestrator. -/
inductive Request where
  | getStatsOverview
  | getRecentTransactions (n : Int)
  | getHealth
  | getMetadata
  | getTransactions (page limit : Int) (use_chip : Option String)
      (is_fraud : Option Int) (min_amount max_amount : Option ℚ)
      (merchant_state : Option String)
  | getTransactionTypes
  | getCustomers (page limit : Int)
  | getTopCustomers (n : Int)
  | getCustomerProfile (c : CItem)
  | getFraudSummary
  | getFraudByType
  | postPredictFraud (amount : ℚ) (use_chip : String)
      (merchant_state : String) (mcc : Int)
  | getAmountDistribution (bins : Int)
  | getStatsByType
  | getDailyStats (limit : Int)
deriving Repr, DecidableEq

/-- Payload of `GET /api/transactions`: the orchestrator reads
`result.get("transactions", [])` and `result.get("total", 0)`, so each key
is optional. -/
structure TransactionsPayload where
  transactions? : Option (List Dict) := none
  total? : Option Int := none
deriving Repr, DecidableEq

/-- Payload of `GET /api/customers` (`customers` may be `[int]` or
`[object]`). -/
structure CustomersPayload where
  customers? : Option (List CItem) := none
  total? : Option Int := none
deriving Repr, DecidableEq

/-- Comprehension `[Model(**item) for item in items]`: left-to-right construction that
fails at the first item failing validation. -/
def parseAll {a b : Type} (f : a -> Option b) : List a -> Option (List b)
  | [] => some []
  | x :: rest =>
      match f x, parseAll f rest with
      | some y, some l => some (y :: l)
      | _, _ => none

/-- Rendering of `str(e)` for a raised pydantic validation error while
building `model` objects from payload items. -/
def validationError (model : String) : String :=
  "validation error for " ++ model

/-! ## `load_dashboard_data` -/

/-- Environment of one `load_dashboard_data` invocation: the clock and the
four gathered call results. -/
structure DashboardEnv where
  now : ℚ
  statsOverview : Except String Dict
  recentTransactions : Except String (List Dict)
  health : Except String Dict
  metadata : Except String Dict

/-- The four dashboard requests issued by `asyncio.gather`. -/
def dashRequests : List Request :=
  [Request.getStatsOverview,
   Request.getRecentTransactions RECENT_TRANSACTIONS_LIMIT,
   Request.getHealth, Request.getMetadata]

/-- Cache gate of `load_dashboard_data`: fresh `"dashboard"` key and truthy
`stats_overview` and truthy `recent_transactions`. -/
def dashCacheHit (env : DashboardEnv) (s : AppState) : Bool :=
  is_cache_valid s env.now "dashboard" &&
    !s.stats_overview.isEmpty && !s.recent_transactions.isEmpty

/-- Result processing after the recent-transactions step (no further raise
point): health and metadata assignment, forced version override, cache
touch. -/
def dashAfter (env : DashboardEnv) (s : AppState) : AppState :=
  let s3 := match env.health with
    | .ok v => { s with system_health := v }
    | .error _ => s
  let s4 := match env.metadata with
    | .ok v => { s3 with system_metadata := Dict.set v "version" (.str "1.1.0") }
    | .error _ => s3
  update_cache_timestamp s4 "dashboard" env.now

/-- The `try` body of `load_dashboard_data` (after the loading flag and
error reset): an error carries the state at the raise point. -/
def dashBody (env : DashboardEnv) (s : AppState) :
    Except (AppState × String) AppState :=
  let s1 := match env.statsOverview with
    | .ok v => { s with stats_overview := v }
    | .error _ => s
  match env.recentTransactions with
  | .error _ => .ok (dashAfter env s1)
  | .ok items =>
      match parseAll Transaction.ofDict? items with
      | some txs => .ok (dashAfter env { s1 with recent_transactions := txs })
      | none => .error (s1, validationError "Transaction")

/-- Embeds `AppState.load_dashboard_data`. -/
def load_dashboard_data (env : DashboardEnv) (s : AppState) :
    AppState × List Request :=
  if dashCacheHit env s then (s, [])
  else
    let s0 := { s with is_loading := true, error_message := "" }
    match dashBody env s0 with
    | .ok s' => ({ s' with is_loading := false }, dashRequests)
    | .error (s', e) =>
        ({ s' with error_message := "Error loading dashboard: " ++ e,
                   is_loading := false }, dashRequests)

/-! ## `load_transactions`, `next_page`, `prev_page` -/

/-- Environment of one `load_transactions` invocation. -/
structure TransactionsEnv where
  resp : Except String TransactionsPayload

/-- Embeds `AppState.load_transactions`. -/
def load_transactions (env : TransactionsEnv) (s : AppState) :
    AppState × List Request :=
  let s0 := { s with is_loading := true, error_message := "" }
  if s.filter_min_amount ≠ "" ∧ pyFloat? s.filter_min_amount = none then
    ({ s0 with error_message := "Invalid minimum amount",
               is_loading := false }, [])
  else if s.filter_max_amount ≠ "" ∧ pyFloat? s.filter_max_amount = none then
    ({ s0 with error_message := "Invalid maximum amount",
               is_loading := false }, [])
  else
    let min_amt : Option ℚ :=
      if s.filter_min_amount ≠ "" then pyFloat? s.filter_min_amount else none
    let max_amt : Option ℚ :=
      if s.filter_max_amount ≠ "" then pyFloat? s.filter_max_amount else none
    let req := Request.getTransactions s.current_page s.items_per_page
      (if s.filter_use_chip ≠ "" then some s.filter_use_chip else none)
      s.filter_is_fraud min_amt max_amt
      (if s.filter_merchant_state ≠ "" then some s.filter_merchant_state
       else none)
    match env.resp with
    | .error e =>
        ({ s0 with error_message := "Error loading transactions: " ++ e,
                   is_loading := false }, [req])
    | .ok p =>
        match parseAll Transaction.ofDict? (p.transactions?.getD []) with
        | none =>
            ({ s0 with error_message := "Error loading transactions: " ++
                 validationError "Transaction", is_loading := false }, [req])
        | some txs =>
            ({ s0 with transactions := txs,
                       total_transactions := p.total?.getD 0,
                       is_loading := false }, [req])

/-- Embeds `AppState.next_page`: guarded by `items_per_page <= 0`; `//` is Python
floor division. -/
def next_page (env : TransactionsEnv) (s : AppState) :
    AppState × List Request :=
  if s.items_per_page ≤ 0 then (s, [])
  else
    let total_pages :=
      (s.total_transactions + s.items_per_page - 1).fdiv s.items_per_page
    if s.current_page < total_pages then
      load_transactions env { s with current_page := s.current_page + 1 }
    else (s, [])

/-- Embeds `AppState.prev_page`: note there is no `items_per_page` guard here in
the source. -/
def prev_page (env : TransactionsEnv) (s : AppState) :
    AppState × List Request :=
  if s.current_page > 1 then
    load_transactions env { s with current_page := s.current_page - 1 }
  else (s, [])

/-! ## `load_customers` -/

/-- Environment of one `load_customers` invocation: the collection call
result and one profile-call result per element of the raw collection. -/
structure CustomersEnv where
  customersResp : Except String CustomersPayload
  profile : CItem → Except String Dict

/-- The loop body `if item and "avg_amount" not in item: ...` on one
customer record: computes the derived average; an error models the
`TypeError` raised when a non-numeric value reaches `>`/`/`. -/
def fill_avg_amount (d : Dict) : Except String Dict :=
  if d.isEmpty || d.member "avg_amount" then .ok d
  else
    match (d.getD "transactions_count" (.num 0)).pyNum? with
    | none => .error "unsupported operand type for comparison"
    | some count =>
      if count > 0 then
        match (d.getD "total_amount" (.num 0)).pyNum? with
        | none => .error "unsupported operand type for division"
        | some total => .ok (d.set "avg_amount" (.num (total / count)))
      else .ok (d.set "avg_amount" (.num 0))

/-- The same loop body on an arbitrary collection element: a truthy bare
integer raises at the `in` test (`TypeError`), a falsy one is skipped. -/
def fillStep : CItem → Except String CItem
  | .cid i =>
      if i = 0 then .ok (.cid 0)
      else .error "argument of type int is not iterable"
  | .obj d => (fill_avg_amount d).map CItem.obj

/-- The normalization loop over the whole collection: left-to-right,
stopping at the first raised error. -/
def fillAll : List CItem -> Except String (List CItem)
  | [] => .ok []
  | it :: rest =>
      match fillStep it, fillAll rest with
      | .ok a, .ok l => .ok (a :: l)
      | .error e, _ => .error e
      | .ok _, .error e => .error e

/-- Python truthiness of a collection element. -/
def truthyC : CItem → Bool
  | .cid i => i ≠ 0
  | .obj d => !d.isEmpty

/-- Construction `Customer(**item)` on a collection element (`none`: raised error). -/
def parseCustomerItem : CItem → Option Customer
  | .obj d => Customer.ofDict? d
  | .cid _ => none

/-- Embeds `AppState.load_customers`. -/
def load_customers (env : CustomersEnv) (s : AppState) :
    AppState × List Request :=
  let s0 := { s with is_loading := true, error_message := "" }
  let baseReq := Request.getCustomers s.customers_page s.items_per_page
  match env.customersResp with
  | .error e =>
      ({ s0 with error_message := "Error loading customers: " ++ e,
                 is_loading := false }, [baseReq])
  | .ok p =>
    let raw := p.customers?.getD []
    let isIdList : Bool := match raw with
      | CItem.cid _ :: _ => true
      | _ => false
    let profileReqs :=
      if isIdList then raw.map Request.getCustomerProfile else []
    let reqs := baseReq :: profileReqs
    let data : List CItem :=
      if isIdList then
        raw.filterMap fun c =>
          match env.profile c with
          | .ok d => some (CItem.obj d)
          | .error _ => none
      else raw
    let final : AppState :=
      match fillAll data with
      | .error e =>
          { s0 with error_message := "Error loading customers: " ++ e }
      | .ok data2 =>
          match parseAll parseCustomerItem (data2.filter truthyC) with
          | none =>
              { s0 with error_message := "Error loading customers: " ++
                  validationError "Customer" }
          | some cs =>
              { s0 with customers := cs,
                        total_customers := p.total?.getD 0 }
    ({ final with is_loading := false }, reqs)

/-! ## `load_fraud_data` -/

/-- Lexicographic string order as a Bool (via `Ord String`). -/
def strLe (a b : String) : Bool := compare a b ≠ Ordering.gt

/-- Insertion into a sorted list of strings. -/
def strInsert (x : String) : List String → List String
  | [] => [x]
  | y :: ys => if strLe x y then x :: y :: ys else y :: strInsert x ys

/-- Python `sorted(...)` on a list of strings. -/
def sortStrings (l : List String) : List String := l.foldr strInsert []

/-- The truthy `merchant_state` values found in raw transactions
(`{t.get("merchant_state") for t in transactions if t.get("merchant_state")}`).
Only string values are collected: a truthy non-string here would make the
silently-caught enhancement block raise at `sorted`, leaving the options
unchanged, and no property below involves such payloads. -/
def foundStates (txs : List Dict) : List String :=
  txs.filterMap fun t =>
    match Dict.getVal? t "merchant_state" with
    | some (Val.str st) => if st ≠ "" then some st else none
    | _ => none

/-- The rendered truthy `mcc` values found in raw transactions
(`{str(t.get("mcc")) for t in transactions if t.get("mcc")}`). -/
def foundMccs (txs : List Dict) : List String :=
  txs.filterMap fun t =>
    match Dict.getVal? t "mcc" with
    | some v => if v.truthy then some v.pyStr else none
    | none => none

/-- The dropdown-option enhancement of `load_fraud_data`: merge newly seen
states and MCC codes into the option lists (set union, sorted). -/
def updateOptions (txs : List Dict) (s : AppState) : AppState :=
  let fs := foundStates txs
  let newStates := fs.dedup.filter fun x => !s.merchant_states.contains x
  let s1 :=
    if newStates ≠ [] then
      { s with merchant_states := sortStrings (s.merchant_states ++ fs).dedup }
    else s
  let fm := foundMccs txs
  let newMccs := fm.dedup.filter fun x => !s1.mcc_codes.contains x
  if newMccs ≠ [] then
    { s1 with mcc_codes := sortStrings (s1.mcc_codes ++ fm).dedup }
  else s1

/-- Environment of one `load_fraud_data` invocation: the two gathered call
results and the silently-caught transactions fetch. -/
structure FraudEnv where
  now : ℚ
  fraudSummary : Except String Dict
  fraudByType : Except String (List Dict)
  txEnhancement : Except String TransactionsPayload

/-- Cache gate of `load_fraud_data`. -/
def fraudCacheHit (env : FraudEnv) (s : AppState) : Bool :=
  is_cache_valid s env.now "fraud" && !s.fraud_summary.isEmpty

/-- The two gathered fraud requests. -/
def fraudGatherRequests : List Request :=
  [Request.getFraudSummary, Request.getFraudByType]

/-- The enhancement request (`get_transactions(limit=100)`). -/
def fraudEnhancementRequest : Request :=
  Request.getTransactions 1 100 none none none none none

/-- Embeds `AppState.load_fraud_data`.  The enhancement fetch only happens when the
`FraudStat` construction did not raise; its own failure is swallowed. -/
def load_fraud_data (env : FraudEnv) (s : AppState) :
    AppState × List Request :=
  if fraudCacheHit env s then (s, [])
  else
    let s0 := { s with is_loading := true, error_message := "" }
    let s1 := match env.fraudSummary with
      | .ok v => { s0 with fraud_summary := v }
      | .error _ => s0
    let afterByType : Except (AppState × String) AppState :=
      match env.fraudByType with
      | .error _ => .ok s1
      | .ok items =>
          match parseAll FraudStat.ofDict? items with
          | some fs => .ok { s1 with fraud_by_type := fs }
          | none => .error (s1, validationError "FraudStat")
    match afterByType with
    | .error (s', e) =>
        ({ s' with error_message := "Error loading fraud data: " ++ e,
                   is_loading := false }, fraudGatherRequests)
    | .ok s2 =>
        let s3 := match env.txEnhancement with
          | .ok p => updateOptions (p.transactions?.getD []) s2
          | .error _ => s2
        ({ update_cache_timestamp s3 "fraud" env.now with
             is_loading := false },
         fraudGatherRequests ++ [fraudEnhancementRequest])

/-! ## `predict_fraud` -/

/-- Environment of one `predict_fraud` invocation. -/
structure PredictEnv where
  result : Except String Dict

/-- Embeds `AppState.predict_fraud`. -/
def predict_fraud (env : PredictEnv) (amount : ℚ) (use_chip : String)
    (merchant_state : String) (mcc : Int) (s : AppState) :
    AppState × List Request :=
  let s0 := { s with is_loading := true, error_message := "",
                     fraud_prediction := [] }
  let req := Request.postPredictFraud amount use_chip merchant_state mcc
  match env.result with
  | .ok d => ({ s0 with fraud_prediction := d, is_loading := false }, [req])
  | .error e =>
      ({ s0 with error_message := "Error predicting fraud: " ++ e,
                 is_loading := false }, [req])

/-! ## `load_stats_data` -/

/-- Environment of one `load_stats_data` invocation: the three gathered
call results. -/
structure StatsEnv where
  now : ℚ
  amountDistribution : Except String Dict
  statsByType : Except String (List Dict)
  dailyStats : Except String (List Dict)

/-- Cache gate of `load_stats_data`. -/
def statsCacheHit (env : StatsEnv) (s : AppState) : Bool :=
  is_cache_valid s env.now "stats" && !s.amount_distribution.isEmpty

/-- The three gathered stats requests. -/
def statsRequests : List Request :=
  [Request.getAmountDistribution AMOUNT_DISTRIBUTION_BINS,
   Request.getStatsByType, Request.getDailyStats DAILY_STATS_LIMIT]

/-- Embeds `AppState.load_stats_data`. -/
def load_stats_data (env : StatsEnv) (s : AppState) :
    AppState × List Request :=
  if statsCacheHit env s then (s, [])
  else
    let s0 := { s with is_loading := true, error_message := "" }
    let s1 := match env.amountDistribution with
      | .ok v => { s0 with amount_distribution := v }
      | .error _ => s0
    let afterByType : Except (AppState × String) AppState :=
      match env.statsByType with
      | .error _ => .ok s1
      | .ok items =>
          match parseAll TypeStat.ofDict? items with
          | some ts => .ok { s1 with stats_by_type := ts }
          | none => .error (s1, validationError "TypeStat")
    let afterDaily : Except (AppState × String) AppState := do
      let s2 ← afterByType
      match env.dailyStats with
      | .error _ => pure s2
      | .ok items =>
          match parseAll DailyStat.ofDict? items with
          | some ds => pure { s2 with daily_stats := ds }
          | none => .error (s2, validationError "DailyStat")
    match afterDaily with
    | .ok s3 =>
        ({ update_cache_timestamp s3 "stats" env.now with
             is_loading := false }, statsRequests)
    | .error (s3, e) =>
        ({ s3 with error_message := "Error loading stats: " ++ e,
                   is_loading := false }, statsRequests)

/-! ## `search_customer` -/

/-- Environment of one `search_customer` invocation. -/
structure SearchEnv where
  profile : Except String Dict

/-- Embeds `AppState.search_customer`.  The empty-id early return happens before
the loading flag is set; the non-numeric-id return happens inside the
`try`, so its `finally` clears the flag. -/
def search_customer (env : SearchEnv) (s : AppState) :
    AppState × List Request :=
  if s.search_customer_id = "" then
    ({ s with error_message := "Please enter a customer ID" }, [])
  else
    let s0 := { s with is_loading := true, error_message := "" }
    match pyInt? s.search_customer_id with
    | none =>
        ({ s0 with error_message := "Customer ID must be a number",
                   is_loading := false }, [])
    | some cid =>
        let req := Request.getCustomerProfile (.cid cid)
        match env.profile with
        | .error e =>
            ({ s0 with error_message := "Error searching customer: " ++ e,
                       is_loading := false }, [req])
        | .ok d =>
            if !d.isEmpty then
              ({ s0 with customer_profile := d, is_loading := false }, [req])
            else
              let msg := "Customer " ++ s.search_customer_id ++ " not found"
              ({ s0 with error_message := msg, is_loading := false }, [req])

/-! ## Helper lemmas -/

theorem tsLookup_tsSet_self (ts : List (String × ℚ)) (k : String) (v : ℚ) :
    tsLookup (tsSet ts k v) k = some v := by
  induction ts with
  | nil => simp [tsSet, tsLookup]
  | cons hd tl ih =>
      obtain ⟨k', v'⟩ := hd
      by_cases h : k' == k
      · simp [tsSet, tsLookup, h]
      · simp only [tsSet, h, Bool.false_eq_true, if_false, tsLookup, ih]

theorem Dict.member_set (d : Dict) (k : String) (v : Val) :
    (Dict.set d k v).member k = true := by
  induction d with
  | nil => simp [Dict.set, Dict.member]
  | cons hd tl ih =>
      obtain ⟨k', v'⟩ := hd
      by_cases h : k' == k
      · simp [Dict.set, Dict.member, h]
      · simp only [Dict.set, h, Bool.false_eq_true, if_false, Dict.member,
          List.any_cons, h, Bool.false_or]
        exact ih

theorem updateOptions_fraud_summary (txs : List Dict) (s : AppState) :
    (updateOptions txs s).fraud_summary = s.fraud_summary := by
  unfold updateOptions
  dsimp only
  split <;> split <;> rfl

theorem updateOptions_fraud_by_type (txs : List Dict) (s : AppState) :
    (updateOptions txs s).fraud_by_type = s.fraud_by_type := by
  unfold updateOptions
  dsimp only
  split <;> split <;> rfl

theorem updateOptions_error_message (txs : List Dict) (s : AppState) :
    (updateOptions txs s).error_message = s.error_message := by
  unfold updateOptions
  dsimp only
  split <;> split <;> rfl

theorem updateOptions_cache_timestamps (txs : List Dict) (s : AppState) :
    (updateOptions txs s).cache_timestamps = s.cache_timestamps := by
  unfold updateOptions
  dsimp only
  split <;> split <;> rfl

theorem load_dashboard_is_loading (env : DashboardEnv) (s : AppState)
    (h : s.is_loading = false) :
    (load_dashboard_data env s).1.is_loading = false := by
  unfold load_dashboard_data
  split
  · exact h
  · dsimp only
    split <;> rfl

theorem load_transactions_is_loading (env : TransactionsEnv) (s : AppState) :
    (load_transactions env s).1.is_loading = false := by
  unfold load_transactions
  dsimp only
  split
  · rfl
  · split
    · rfl
    · split
      · rfl
      · split <;> rfl

theorem load_customers_is_loading (env : CustomersEnv) (s : AppState) :
    (load_customers env s).1.is_loading = false := by
  unfold load_customers
  dsimp only
  split <;> rfl

theorem load_fraud_is_loading (env : FraudEnv) (s : AppState)
    (h : s.is_loading = false) :
    (load_fraud_data env s).1.is_loading = false := by
  unfold load_fraud_data
  split
  · exact h
  · dsimp only
    split <;> rfl

theorem load_stats_is_loading (env : StatsEnv) (s : AppState)
    (h : s.is_loading = false) :
    (load_stats_data env s).1.is_loading = false := by
  unfold load_stats_data
  split
  · exact h
  · dsimp only
    split <;> rfl

theorem predict_fraud_is_loading (env : PredictEnv) (amount : ℚ)
    (use_chip merchant_state : String) (mcc : Int) (s : AppState) :
    (predict_fraud env amount use_chip merchant_state mcc s).1.is_loading =
      false := by
  unfold predict_fraud
  dsimp only
  split <;> rfl

theorem search_customer_is_loading (env : SearchEnv) (s : AppState)
    (h : s.is_loading = false) :
    (search_customer env s).1.is_loading = false := by
  unfold search_customer
  split
  · exact h
  · dsimp only
    split
    · rfl
    · split
      · rfl
      · split <;> rfl

/-! ## Claims -/

/-- C3: After every orchestrator load operation completes
(`load_dashboard_data`, `load_transactions`, `load_customers`,
`load_fraud_data`, `load_stats_data`, `predict_fraud`, `search_customer`),
`is_loading` is false, regardless of outcome — for any environment
(success, per-call failure, raised validation error, validation-failure
early return, cache-hit no-op), starting from any non-loading state. -/
theorem claim_C3 (s : AppState) (h : s.is_loading = false)
    (denv : DashboardEnv) (tenv : TransactionsEnv) (cenv : CustomersEnv)
    (fenv : FraudEnv) (stenv : StatsEnv) (penv : PredictEnv)
    (senv : SearchEnv) (amount : ℚ) (use_chip merchant_state : String)
    (mcc : Int) :
    (load_dashboard_data denv s).1.is_loading = false ∧
    (load_transactions tenv s).1.is_loading = false ∧
    (load_customers cenv s).1.is_loading = false ∧
    (load_fraud_data fenv s).1.is_loading = false ∧
    (load_stats_data stenv s).1.is_loading = false ∧
    (predict_fraud penv amount use_chip merchant_state mcc s).1.is_loading =
      false ∧
    (search_customer senv s).1.is_loading = false :=
  ⟨load_dashboard_is_loading denv s h,
   load_transactions_is_loading tenv s,
   load_customers_is_loading cenv s,
   load_fraud_is_loading fenv s h,
   load_stats_is_loading stenv s h,
   predict_fraud_is_loading penv amount use_chip merchant_state mcc s,
   search_customer_is_loading senv s h⟩

/-- Witness for C3 at a concrete non-loading state and all-failing remote
environments. -/
theorem claim_C3_witness :
    initState.is_loading = false ∧
    ((load_dashboard_data ⟨0, .error "x", .error "x", .error "x", .error "x"⟩
        initState).1.is_loading = false ∧
     (load_transactions ⟨.error "x"⟩ initState).1.is_loading = false ∧
     (load_customers ⟨.error "x", fun _ => .error "x"⟩
        initState).1.is_loading = false ∧
     (load_fraud_data ⟨0, .error "x", .error "x", .error "x"⟩
        initState).1.is_loading = false ∧
     (load_stats_data ⟨0, .error "x", .error "x", .error "x"⟩
        initState).1.is_loading = false ∧
     (predict_fraud ⟨.error "x"⟩ 5 "Chip Transaction" "CA" 5411
        initState).1.is_loading = false ∧
     (search_customer ⟨.error "x"⟩ initState).1.is_loading = false) :=
  ⟨rfl,
   claim_C3 initState rfl ⟨0, .error "x", .error "x", .error "x", .error "x"⟩
     ⟨.error "x"⟩ ⟨.error "x", fun _ => .error "x"⟩
     ⟨0, .error "x", .error "x", .error "x"⟩
     ⟨0, .error "x", .error "x", .error "x"⟩ ⟨.error "x"⟩ ⟨.error "x"⟩
     5 "Chip Transaction" "CA" 5411⟩

/-- C4: calling `load_transactions` with `filter_min_amount = "abc"` issues
no network call, ends with `error_message = "Invalid minimum amount"`, and
ends with `is_loading = false`; all other state fields are untouched. -/
theorem claim_C4 (env : TransactionsEnv) (s : AppState)
    (h : s.filter_min_amount = "abc") :
    load_transactions env s =
      ({ s with is_loading := false,
                error_message := "Invalid minimum amount" }, []) := by
  have hp : pyFloat? "abc" = none := by decide
  unfold load_transactions
  rw [h]
  simp [hp]

/-- Witness for C4 at the concrete initial state with the filter set. -/
theorem claim_C4_witness :
    ({ initState with filter_min_amount := "abc" } :
        AppState).filter_min_amount = "abc" ∧
    load_transactions ⟨.error "down"⟩
        { initState with filter_min_amount := "abc" } =
      ({ initState with filter_min_amount := "abc", is_loading := false,
                        error_message := "Invalid minimum amount" }, []) :=
  ⟨rfl, claim_C4 ⟨.error "down"⟩ { initState with filter_min_amount := "abc" }
    rfl⟩

/-- C7 is false on the code: `prev_page` has no `items_per_page <= 0`
guard.  At the concrete state with `items_per_page = 0` and
`current_page = 2`, `prev_page` decrements the page and issues a fetch, so
it is not a no-op. -/
theorem claim_C7_counterexample :
    ({ initState with items_per_page := 0, current_page := 2 } :
        AppState).items_per_page ≤ 0 ∧
    (prev_page ⟨.error "down"⟩
        { initState with items_per_page := 0, current_page := 2 }
      ).1.current_page = 1 ∧
    (prev_page ⟨.error "down"⟩
        { initState with items_per_page := 0, current_page := 2 }).2 ≠
      [] := by
  refine ⟨by decide, rfl, ?_⟩
  decide

/-- C7 amended: `next_page()` is a no-op when `current_page` equals
`totalPages = ceil(total_transactions / items_per_page)` and whenever
`items_per_page <= 0`; `prev_page()` is a no-op when `current_page`
equals 1 — but `prev_page` carries no `items_per_page <= 0` guard, so with
a non-positive page size and `current_page > 1` it still decrements and
fetches. -/
theorem claim_C7_amended (env : TransactionsEnv) (s : AppState) :
    (s.items_per_page ≤ 0 → next_page env s = (s, [])) ∧
    (s.current_page =
        (s.total_transactions + s.items_per_page - 1).fdiv s.items_per_page →
      next_page env s = (s, [])) ∧
    (s.current_page = 1 → prev_page env s = (s, [])) := by
  refine ⟨?_, ?_, ?_⟩
  · intro h
    unfold next_page
    simp [h]
  · intro h
    unfold next_page
    by_cases hip : s.items_per_page ≤ 0
    · simp [hip]
    · simp only [hip, if_false]
      rw [← h]
      simp
  · intro h
    unfold prev_page
    simp [h]

/-- Witness for C7 amended: the three no-op guards at concrete states. -/
theorem claim_C7_witness :
    next_page ⟨.error "down"⟩ { initState with items_per_page := 0 } =
      ({ initState with items_per_page := 0 }, []) ∧
    next_page ⟨.error "down"⟩ { initState with total_transactions := 50 } =
      ({ initState with total_transactions := 50 }, []) ∧
    prev_page ⟨.error "down"⟩ initState = (initState, []) :=
  ⟨(claim_C7_amended ⟨.error "down"⟩ _).1 (by decide),
   (claim_C7_amended ⟨.error "down"⟩ _).2.1 (by decide),
   (claim_C7_amended ⟨.error "down"⟩ _).2.2 rfl⟩

/-- C10: `predict_fraud` clears the previous `fraud_prediction` before its
single call, so when the call fails the published prediction ends empty and
`error_message` is set (non-empty); the failed call does not leave the
previous prediction in place. -/
theorem claim_C10 (s : AppState) (e : String) (amount : ℚ)
    (use_chip merchant_state : String) (mcc : Int) :
    (predict_fraud ⟨.error e⟩ amount use_chip merchant_state mcc
        s).1.fraud_prediction = [] ∧
    (predict_fraud ⟨.error e⟩ amount use_chip merchant_state mcc
        s).1.error_message = "Error predicting fraud: " ++ e ∧
    (predict_fraud ⟨.error e⟩ amount use_chip merchant_state mcc
        s).1.error_message ≠ "" ∧
    (predict_fraud ⟨.error e⟩ amount use_chip merchant_state mcc s).2 =
      [Request.postPredictFraud amount use_chip merchant_state mcc] := by
  refine ⟨rfl, rfl, ?_, rfl⟩
  show ("Error predicting fraud: " ++ e) ≠ ""
  intro hcontra
  have h2 := congrArg String.data hcontra
  simp [String.data_append] at h2

/-- Dashboard environment in which every gathered call fails. -/
def dashAllFailEnv : DashboardEnv :=
  { now := 100,
    statsOverview := .error "Connection refused",
    recentTransactions := .error "Connection refused",
    health := .error "Connection refused",
    metadata := .error "Connection refused" }

/-- Fraud environment in which every call fails. -/
def fraudAllFailEnv : FraudEnv :=
  { now := 100,
    fraudSummary := .error "Connection refused",
    fraudByType := .error "Connection refused",
    txEnhancement := .error "Connection refused" }

/-- Stats environment in which every gathered call fails. -/
def statsAllFailEnv : StatsEnv :=
  { now := 100,
    amountDistribution := .error "Connection refused",
    statsByType := .error "Connection refused",
    dailyStats := .error "Connection refused" }

/-- C1 is false on the code: `asyncio.gather(..., return_exceptions=True)`
never raises, so a batch in which every call fails reaches the end of the
`try` body and the `except` clause that would set `error_message` never
runs.  At the initial state with all four dashboard calls failing, the
operation ends with `error_message = ""`, not a descriptive non-empty
string (the previously published fields are indeed left unchanged). -/
theorem claim_C1_counterexample :
    (load_dashboard_data dashAllFailEnv initState).1.error_message = "" ∧
    (load_dashboard_data dashAllFailEnv initState).1.stats_overview =
      initState.stats_overview ∧
    (load_dashboard_data dashAllFailEnv initState).1.recent_transactions =
      initState.recent_transactions ∧
    (load_dashboard_data dashAllFailEnv initState).1.system_health =
      initState.system_health ∧
    (load_dashboard_data dashAllFailEnv initState).1.system_metadata =
      initState.system_metadata :=
  ⟨rfl, rfl, rfl, rfl, rfl⟩

/-- C1 amended: when every remote call in the fan-out batch fails
(`load_dashboard_data`, `load_fraud_data`, `load_stats_data`, on their
non-cache-hit paths), the operation leaves every previously published field
for its section unchanged, but `error_message` ends empty — it is cleared
at the start and never set, because the partial-failure gather never
raises. -/
theorem claim_C1_amended (s : AppState) (denv : DashboardEnv)
    (fenv : FraudEnv) (stenv : StatsEnv)
    (e1 e2 e3 e4 f1 f2 g1 g2 g3 : String)
    (hcd : dashCacheHit denv s = false)
    (hd1 : denv.statsOverview = .error e1)
    (hd2 : denv.recentTransactions = .error e2)
    (hd3 : denv.health = .error e3)
    (hd4 : denv.metadata = .error e4)
    (hcf : fraudCacheHit fenv s = false)
    (hf1 : fenv.fraudSummary = .error f1)
    (hf2 : fenv.fraudByType = .error f2)
    (hcs : statsCacheHit stenv s = false)
    (hs1 : stenv.amountDistribution = .error g1)
    (hs2 : stenv.statsByType = .error g2)
    (hs3 : stenv.dailyStats = .error g3) :
    (load_dashboard_data denv s).1.error_message = "" ∧
    (load_dashboard_data denv s).1.stats_overview = s.stats_overview ∧
    (load_dashboard_data denv s).1.recent_transactions =
      s.recent_transactions ∧
    (load_dashboard_data denv s).1.system_health = s.system_health ∧
    (load_dashboard_data denv s).1.system_metadata = s.system_metadata ∧
    (load_fraud_data fenv s).1.error_message = "" ∧
    (load_fraud_data fenv s).1.fraud_summary = s.fraud_summary ∧
    (load_fraud_data fenv s).1.fraud_by_type = s.fraud_by_type ∧
    (load_stats_data stenv s).1.error_message = "" ∧
    (load_stats_data stenv s).1.amount_distribution =
      s.amount_distribution ∧
    (load_stats_data stenv s).1.stats_by_type = s.stats_by_type ∧
    (load_stats_data stenv s).1.daily_stats = s.daily_stats := by
  refine ⟨?_, ?_, ?_, ?_, ?_, ?_, ?_, ?_, ?_, ?_, ?_, ?_⟩ <;>
    first
    | simp [load_dashboard_data, hcd, dashBody, hd1, hd2, dashAfter,
        hd3, hd4, update_cache_timestamp]
    | (cases henh : fenv.txEnhancement <;>
        simp [load_fraud_data, hcf, hf1, hf2, henh, update_cache_timestamp,
          updateOptions_fraud_summary, updateOptions_fraud_by_type,
          updateOptions_error_message])
    | simp [load_stats_data, hcs, hs1, hs2, hs3, update_cache_timestamp]

/-- Witness for C1 amended at the initial state with all-failing batches. -/
theorem claim_C1_witness :
    (dashCacheHit dashAllFailEnv initState = false ∧
     fraudCacheHit fraudAllFailEnv initState = false ∧
     statsCacheHit statsAllFailEnv initState = false) ∧
    ((load_dashboard_data dashAllFailEnv initState).1.error_message = "" ∧
     (load_dashboard_data dashAllFailEnv initState).1.stats_overview =
       initState.stats_overview ∧
     (load_dashboard_data dashAllFailEnv initState).1.recent_transactions =
       initState.recent_transactions ∧
     (load_dashboard_data dashAllFailEnv initState).1.system_health =
       initState.system_health ∧
     (load_dashboard_data dashAllFailEnv initState).1.system_metadata =
       initState.system_metadata ∧
     (load_fraud_data fraudAllFailEnv initState).1.error_message = "" ∧
     (load_fraud_data fraudAllFailEnv initState).1.fraud_summary =
       initState.fraud_summary ∧
     (load_fraud_data fraudAllFailEnv initState).1.fraud_by_type =
       initState.fraud_by_type ∧
     (load_stats_data statsAllFailEnv initState).1.error_message = "" ∧
     (load_stats_data statsAllFailEnv initState).1.amount_distribution =
       initState.amount_distribution ∧
     (load_stats_data statsAllFailEnv initState).1.stats_by_type =
       initState.stats_by_type ∧
     (load_stats_data statsAllFailEnv initState).1.daily_stats =
       initState.daily_stats) :=
  ⟨⟨by decide, by decide, by decide⟩,
   claim_C1_amended initState dashAllFailEnv fraudAllFailEnv statsAllFailEnv
     _ _ _ _ _ _ _ _ _ (by decide) rfl rfl rfl rfl (by decide) rfl rfl
     (by decide) rfl rfl rfl⟩

/-- Whether the dashboard `try` body raises: the only raise point is the
`Transaction(**item)` construction on a successful recent-transactions
result. -/
def dashRaises (env : DashboardEnv) : Bool :=
  match env.recentTransactions with
  | .ok items => (parseAll Transaction.ofDict? items).isNone
  | .error _ => false

/-- Whether the fraud `try` body raises (the `FraudStat` construction). -/
def fraudRaises (env : FraudEnv) : Bool :=
  match env.fraudByType with
  | .ok items => (parseAll FraudStat.ofDict? items).isNone
  | .error _ => false

/-- Whether the stats `try` body raises (the `TypeStat` or `DailyStat`
construction). -/
def statsRaises (env : StatsEnv) : Bool :=
  (match env.statsByType with
   | .ok items => (parseAll TypeStat.ofDict? items).isNone
   | .error _ => false) ||
  (match env.dailyStats with
   | .ok items => (parseAll DailyStat.ofDict? items).isNone
   | .error _ => false)

theorem dash_touch_ok (denv : DashboardEnv) (s : AppState)
    (hcd : dashCacheHit denv s = false) (hnr : dashRaises denv = false) :
    tsLookup (load_dashboard_data denv s).1.cache_timestamps "dashboard" =
      some denv.now := by
  obtain ⟨now, so, rt, he, me⟩ := denv
  unfold dashRaises at hnr
  dsimp only at hnr ⊢
  cases rt with
  | error e =>
      cases so <;> cases he <;> cases me <;>
        simp [load_dashboard_data, hcd, dashBody, dashAfter,
          update_cache_timestamp, tsLookup_tsSet_self]
  | ok items =>
      cases hm : parseAll Transaction.ofDict? items with
      | none => simp [hm] at hnr
      | some txs =>
          cases so <;> cases he <;> cases me <;>
            simp [load_dashboard_data, hcd, dashBody, dashAfter, hm,
              update_cache_timestamp, tsLookup_tsSet_self]

theorem dash_touch_raise (denv : DashboardEnv) (s : AppState)
    (hcd : dashCacheHit denv s = false) (hr : dashRaises denv = true) :
    (load_dashboard_data denv s).1.cache_timestamps = s.cache_timestamps := by
  obtain ⟨now, so, rt, he, me⟩ := denv
  unfold dashRaises at hr
  dsimp only at hr ⊢
  cases rt with
  | error e => simp at hr
  | ok items =>
      cases hm : parseAll Transaction.ofDict? items with
      | some txs => simp [hm] at hr
      | none =>
          cases so <;> simp [load_dashboard_data, hcd, dashBody, hm]

theorem fraud_touch_ok (fenv : FraudEnv) (s : AppState)
    (hcf : fraudCacheHit fenv s = false) (hnr : fraudRaises fenv = false) :
    tsLookup (load_fraud_data fenv s).1.cache_timestamps "fraud" =
      some fenv.now := by
  obtain ⟨now, fs, bt, enh⟩ := fenv
  unfold fraudRaises at hnr
  dsimp only at hnr ⊢
  cases bt with
  | error e =>
      cases fs <;> cases enh <;>
        simp [load_fraud_data, hcf, update_cache_timestamp,
          updateOptions_cache_timestamps, tsLookup_tsSet_self]
  | ok items =>
      cases hm : parseAll FraudStat.ofDict? items with
      | none => simp [hm] at hnr
      | some stats =>
          cases fs <;> cases enh <;>
            simp [load_fraud_data, hcf, hm, update_cache_timestamp,
              updateOptions_cache_timestamps, tsLookup_tsSet_self]

theorem fraud_touch_raise (fenv : FraudEnv) (s : AppState)
    (hcf : fraudCacheHit fenv s = false) (hr : fraudRaises fenv = true) :
    (load_fraud_data fenv s).1.cache_timestamps = s.cache_timestamps := by
  obtain ⟨now, fs, bt, enh⟩ := fenv
  unfold fraudRaises at hr
  dsimp only at hr ⊢
  cases bt with
  | error e => simp at hr
  | ok items =>
      cases hm : parseAll FraudStat.ofDict? items with
      | some stats => simp [hm] at hr
      | none =>
          cases fs <;> simp [load_fraud_data, hcf, hm]

theorem stats_touch_ok (stenv : StatsEnv) (s : AppState)
    (hcs : statsCacheHit stenv s = false) (hnr : statsRaises stenv = false) :
    tsLookup (load_stats_data stenv s).1.cache_timestamps "stats" =
      some stenv.now := by
  obtain ⟨now, ad, bt, ds⟩ := stenv
  unfold statsRaises at hnr
  dsimp only at hnr ⊢
  rw [Bool.or_eq_false_iff] at hnr
  obtain ⟨h1, h2⟩ := hnr
  cases bt with
  | error e1 =>
      cases ds with
      | error e2 =>
          cases ad <;>
            simp [load_stats_data, hcs, update_cache_timestamp,
              tsLookup_tsSet_self, Bind.bind, Except.bind, Pure.pure, Except.pure]
      | ok items2 =>
          cases hm2 : parseAll DailyStat.ofDict? items2 with
          | none => simp [hm2] at h2
          | some d2 =>
              cases ad <;>
                simp [load_stats_data, hcs, hm2, update_cache_timestamp,
                  tsLookup_tsSet_self, Bind.bind, Except.bind, Pure.pure, Except.pure]
  | ok items1 =>
      cases hm1 : parseAll TypeStat.ofDict? items1 with
      | none => simp [hm1] at h1
      | some t1 =>
          cases ds with
          | error e2 =>
              cases ad <;>
                simp [load_stats_data, hcs, hm1, update_cache_timestamp,
                  tsLookup_tsSet_self, Bind.bind, Except.bind, Pure.pure, Except.pure]
          | ok items2 =>
              cases hm2 : parseAll DailyStat.ofDict? items2 with
              | none => simp [hm2] at h2
              | some d2 =>
                  cases ad <;>
                    simp [load_stats_data, hcs, hm1, hm2,
                      update_cache_timestamp, tsLookup_tsSet_self,
                      Bind.bind, Except.bind, Pure.pure, Except.pure]

theorem stats_touch_raise (stenv : StatsEnv) (s : AppState)
    (hcs : statsCacheHit stenv s = false) (hr : statsRaises stenv = true) :
    (load_stats_data stenv s).1.cache_timestamps = s.cache_timestamps := by
  obtain ⟨now, ad, bt, ds⟩ := stenv
  unfold statsRaises at hr
  dsimp only at hr ⊢
  cases bt with
  | error e1 =>
      simp only [Bool.false_or] at hr
      cases ds with
      | error e2 => simp at hr
      | ok items2 =>
          cases hm2 : parseAll DailyStat.ofDict? items2 with
          | some d2 => simp [hm2] at hr
          | none =>
              cases ad <;>
                simp [load_stats_data, hcs, hm2, Bind.bind, Except.bind, Pure.pure, Except.pure]
  | ok items1 =>
      cases hm1 : parseAll TypeStat.ofDict? items1 with
      | none =>
          cases ad <;>
            simp [load_stats_data, hcs, hm1, Bind.bind, Except.bind, Pure.pure, Except.pure]
      | some t1 =>
          simp only [hm1, Option.isNone_some, Bool.false_or] at hr
          cases ds with
          | error e2 => simp at hr
          | ok items2 =>
              cases hm2 : parseAll DailyStat.ofDict? items2 with
              | some d2 => simp [hm2] at hr
              | none =>
                  cases ad <;>
                    simp [load_stats_data, hcs, hm1, hm2, Bind.bind,
                      Except.bind]

/-- C9 is false on the code: `_update_cache_timestamp` sits at the end of
the `try` body, after the partial-tolerance gather, so it runs even when
every call in the batch failed.  At the initial state (no cache entry) with
all four dashboard calls failing, the operation still creates the
`"dashboard"` timestamp. -/
theorem claim_C9_counterexample :
    initState.cache_timestamps = [] ∧
    (load_dashboard_data dashAllFailEnv initState).1.cache_timestamps =
      [("dashboard", 100)] :=
  ⟨rfl, rfl⟩

/-- C9 amended: on the non-cache-hit path of a cached load operation
(`load_dashboard_data`, `load_fraud_data`, `load_stats_data`), the cache
timestamp for the section key is created or refreshed to the current time
whenever the `try` body completes without a raised error — including when
some or all of the batch calls failed; it is left unchanged exactly when a
record-validation error is raised while building model objects. -/
theorem claim_C9_amended (s : AppState) (denv : DashboardEnv)
    (fenv : FraudEnv) (stenv : StatsEnv)
    (hcd : dashCacheHit denv s = false)
    (hcf : fraudCacheHit fenv s = false)
    (hcs : statsCacheHit stenv s = false) :
    (dashRaises denv = false →
      tsLookup (load_dashboard_data denv s).1.cache_timestamps "dashboard" =
        some denv.now) ∧
    (dashRaises denv = true →
      (load_dashboard_data denv s).1.cache_timestamps =
        s.cache_timestamps) ∧
    (fraudRaises fenv = false →
      tsLookup (load_fraud_data fenv s).1.cache_timestamps "fraud" =
        some fenv.now) ∧
    (fraudRaises fenv = true →
      (load_fraud_data fenv s).1.cache_timestamps = s.cache_timestamps) ∧
    (statsRaises stenv = false →
      tsLookup (load_stats_data stenv s).1.cache_timestamps "stats" =
        some stenv.now) ∧
    (statsRaises stenv = true →
      (load_stats_data stenv s).1.cache_timestamps = s.cache_timestamps) :=
  ⟨fun h => dash_touch_ok denv s hcd h,
   fun h => dash_touch_raise denv s hcd h,
   fun h => fraud_touch_ok fenv s hcf h,
   fun h => fraud_touch_raise fenv s hcf h,
   fun h => stats_touch_ok stenv s hcs h,
   fun h => stats_touch_raise stenv s hcs h⟩

/-- A raw transaction record that fails `Transaction` validation. -/
def badTxDict : Dict := [("id", Val.num 1)]

/-- A raw stat record that fails `FraudStat` and `TypeStat` validation. -/
def badStatDict : Dict := [("type", Val.num 1)]

/-- Dashboard environment whose recent-transactions result succeeds but
fails model validation. -/
def dashRaiseEnv : DashboardEnv :=
  { now := 100, statsOverview := .error "x",
    recentTransactions := .ok [badTxDict],
    health := .error "x", metadata := .error "x" }

/-- Fraud environment whose by-type result fails model validation. -/
def fraudRaiseEnv : FraudEnv :=
  { now := 100, fraudSummary := .error "x",
    fraudByType := .ok [badStatDict], txEnhancement := .error "x" }

/-- Stats environment whose by-type result fails model validation. -/
def statsRaiseEnv : StatsEnv :=
  { now := 100, amountDistribution := .error "x",
    statsByType := .ok [badStatDict], dailyStats := .error "x" }

/-- Witness for C9 amended: touch on an all-failed batch, no touch on a
raised validation error, for each of the three cached operations. -/
theorem claim_C9_witness :
    tsLookup (load_dashboard_data dashAllFailEnv
      initState).1.cache_timestamps "dashboard" = some 100 ∧
    (load_dashboard_data dashRaiseEnv initState).1.cache_timestamps =
      initState.cache_timestamps ∧
    tsLookup (load_fraud_data fraudAllFailEnv
      initState).1.cache_timestamps "fraud" = some 100 ∧
    (load_fraud_data fraudRaiseEnv initState).1.cache_timestamps =
      initState.cache_timestamps ∧
    tsLookup (load_stats_data statsAllFailEnv
      initState).1.cache_timestamps "stats" = some 100 ∧
    (load_stats_data statsRaiseEnv initState).1.cache_timestamps =
      initState.cache_timestamps :=
  ⟨(claim_C9_amended initState dashAllFailEnv fraudAllFailEnv
      statsAllFailEnv (by decide) (by decide) (by decide)).1 (by decide),
   (claim_C9_amended initState dashRaiseEnv fraudAllFailEnv
      statsAllFailEnv (by decide) (by decide) (by decide)).2.1 (by decide),
   (claim_C9_amended initState dashAllFailEnv fraudAllFailEnv
      statsAllFailEnv (by decide) (by decide) (by decide)).2.2.1 (by decide),
   (claim_C9_amended initState dashAllFailEnv fraudRaiseEnv
      statsAllFailEnv (by decide) (by decide) (by decide)).2.2.2.1
     (by decide),
   (claim_C9_amended initState dashAllFailEnv fraudAllFailEnv
      statsAllFailEnv (by decide) (by decide) (by decide)).2.2.2.2.1
     (by decide),
   (claim_C9_amended initState dashAllFailEnv fraudAllFailEnv
      statsRaiseEnv (by decide) (by decide) (by decide)).2.2.2.2.2
     (by decide)⟩

/-- First-invocation environment: every call succeeds, but the API returns
an empty recent-transactions list. -/
def dashOkEmptyRecentEnv : DashboardEnv :=
  { now := 0, statsOverview := .ok [("total_transactions", .num 5)],
    recentTransactions := .ok [], health := .ok [], metadata := .ok [] }

/-- Second-invocation environment, one time unit later (inside the 60s
TTL). -/
def dashSecondEnv : DashboardEnv :=
  { now := 1, statsOverview := .error "x", recentTransactions := .error "x",
    health := .error "x", metadata := .error "x" }

/-- C5 is false on the code: the cache gate of `load_dashboard_data` also
requires a non-empty `recent_transactions`, not just a non-empty
`stats_overview`.  After a fully successful first invocation whose
recent-transactions payload was the empty list, the second invocation
within the TTL — with a non-empty `stats_overview` published and a fresh
cache entry — still issues network requests. -/
theorem claim_C5_counterexample :
    (load_dashboard_data dashOkEmptyRecentEnv initState).1.error_message =
      "" ∧
    (load_dashboard_data dashOkEmptyRecentEnv initState).1.stats_overview ≠
      [] ∧
    is_cache_valid (load_dashboard_data dashOkEmptyRecentEnv initState).1 1
      "dashboard" = true ∧
    (load_dashboard_data dashSecondEnv
      (load_dashboard_data dashOkEmptyRecentEnv initState).1).2 ≠ [] := by
  refine ⟨rfl, by decide, ?_, ?_⟩
  · have hts : (load_dashboard_data dashOkEmptyRecentEnv
        initState).1.cache_timestamps = [("dashboard", 0)] := rfl
    unfold is_cache_valid
    rw [hts]
    norm_num [tsLookup, CACHE_TTL_SECONDS]
  · have hgate : dashCacheHit dashSecondEnv
        (load_dashboard_data dashOkEmptyRecentEnv initState).1 = false := by
      have hrec : (load_dashboard_data dashOkEmptyRecentEnv
          initState).1.recent_transactions = [] := rfl
      unfold dashCacheHit
      rw [hrec]
      simp
    generalize hS : (load_dashboard_data dashOkEmptyRecentEnv initState).1 =
      S at hgate ⊢
    unfold load_dashboard_data
    simp only [hgate, Bool.false_eq_true, if_false]
    split <;> simp [dashRequests]

/-- C5 amended: a second `load_dashboard_data` invocation within the TTL
window is a no-op issuing zero network requests and leaving all published
state unchanged, provided both a non-empty `stats_overview` **and** a
non-empty `recent_transactions` are already published. -/
theorem claim_C5_amended (env : DashboardEnv) (s : AppState)
    (h1 : is_cache_valid s env.now "dashboard" = true)
    (h2 : s.stats_overview ≠ [])
    (h3 : s.recent_transactions ≠ []) :
    load_dashboard_data env s = (s, []) := by
  unfold load_dashboard_data dashCacheHit
  simp [h1, List.isEmpty_iff, h2, h3]

/-- A concrete well-formed transaction. -/
def someTx : Transaction :=
  { id := "t1", client_id := 7, date := "2024-01-01", amount := 10,
    isFraud := 0 }

/-- A state holding freshly cached, non-empty dashboard data. -/
def cachedState : AppState :=
  { initState with
      cache_timestamps := [("dashboard", 0)],
      stats_overview := [("total_transactions", Val.num 5)],
      recent_transactions := [someTx] }

/-- Witness for C5 amended at the concrete cached state, one time unit
after the cache touch. -/
theorem claim_C5_witness :
    (is_cache_valid cachedState 1 "dashboard" = true ∧
     cachedState.stats_overview ≠ [] ∧
     cachedState.recent_transactions ≠ []) ∧
    load_dashboard_data dashSecondEnv cachedState = (cachedState, []) := by
  have hfresh : is_cache_valid cachedState 1 "dashboard" = true := by
    have hts : tsLookup cachedState.cache_timestamps "dashboard" =
        some 0 := rfl
    unfold is_cache_valid
    rw [hts]
    norm_num [CACHE_TTL_SECONDS]
  exact ⟨⟨hfresh, by decide, by decide⟩,
    claim_C5_amended dashSecondEnv cachedState hfresh (by decide)
      (by decide)⟩

/-- C8: for every (truthy) customer record missing `avg_amount` whose
`transactions_count` and `total_amount` read as numbers, the normalization
step defines `avg_amount` as `total_amount / transactions_count` when the
count is positive and as `0` otherwise (in particular when the count is 0,
so no division by zero occurs), and the field is present in the resulting
record. -/
theorem claim_C8 (d : Dict) (c t : ℚ)
    (h0 : d.isEmpty = false)
    (h1 : d.member "avg_amount" = false)
    (h2 : (d.getD "transactions_count" (.num 0)).pyNum? = some c)
    (h3 : (d.getD "total_amount" (.num 0)).pyNum? = some t) :
    fill_avg_amount d =
      .ok (d.set "avg_amount" (.num (if c > 0 then t / c else 0))) ∧
    (d.set "avg_amount"
      (.num (if c > 0 then t / c else 0))).member "avg_amount" = true := by
  refine ⟨?_, Dict.member_set d "avg_amount" _⟩
  by_cases hc : c > 0 <;>
    simp [fill_avg_amount, h0, h1, h2, h3, hc]

/-- A concrete customer record with `transactions_count = 0` and no
`avg_amount`. -/
def c8Dict : Dict :=
  [("id", Val.str "9"), ("transactions_count", Val.num 0),
   ("total_amount", Val.num 7)]

/-- Witness for C8 on the zero-count record: `avg_amount` is defined
as 0. -/
theorem claim_C8_witness :
    (c8Dict.isEmpty = false ∧ c8Dict.member "avg_amount" = false ∧
     (c8Dict.getD "transactions_count" (.num 0)).pyNum? = some 0 ∧
     (c8Dict.getD "total_amount" (.num 0)).pyNum? = some 7) ∧
    (fill_avg_amount c8Dict =
      .ok (c8Dict.set "avg_amount"
        (.num (if (0:ℚ) > 0 then 7 / 0 else 0))) ∧
     (c8Dict.set "avg_amount"
       (.num (if (0:ℚ) > 0 then 7 / 0 else 0))).member "avg_amount" =
       true) :=
  ⟨⟨rfl, rfl, rfl, rfl⟩, claim_C8 c8Dict 0 7 rfl rfl rfl rfl⟩

/-- C6: when the customers call returns bare identifiers
`{"customers": [101, 102], "total": 2}`, `load_customers` issues one
profile lookup per identifier; with the lookup for 102 failing and the
lookup for 101 yielding a record that survives normalization and
validation, the published collection holds exactly that one customer,
`total_customers` is 2, and no error is reported. -/
theorem claim_C6 (s : AppState) (env : CustomersEnv) (d1 d1' : Dict)
    (e : String) (c : Customer)
    (h1 : env.customersResp =
      .ok { customers? := some [.cid 101, .cid 102], total? := some 2 })
    (h2 : env.profile (.cid 101) = .ok d1)
    (h3 : env.profile (.cid 102) = .error e)
    (h4 : fill_avg_amount d1 = .ok d1')
    (h5 : d1'.isEmpty = false)
    (h6 : Customer.ofDict? d1' = some c) :
    (load_customers env s).1.customers = [c] ∧
    (load_customers env s).1.total_customers = 2 ∧
    (load_customers env s).1.error_message = "" ∧
    (load_customers env s).2 =
      [Request.getCustomers s.customers_page s.items_per_page,
       Request.getCustomerProfile (.cid 101),
       Request.getCustomerProfile (.cid 102)] := by
  obtain ⟨resp, prof⟩ := env
  simp only at h1 h2 h3
  subst h1
  simp [load_customers, h2, h3, fillAll, fillStep, h4, Except.map,
    truthyC, h5, parseAll, parseCustomerItem, h6]

/-- The profile record served for customer 101 (already carrying
`avg_amount`). -/
def prof101 : Dict :=
  [("id", Val.str "101"), ("transactions_count", Val.num 5),
   ("total_amount", Val.num 100), ("avg_amount", Val.num 20)]

/-- The parsed customer 101. -/
def cust101 : Customer :=
  { id := "101", transactions_count := 5, total_amount := 100,
    avg_amount := 20, fraud_count := 0 }

/-- Customers environment of the C6 scenario: bare ids `[101, 102]`,
profile 101 succeeds, profile 102 fails. -/
def c6Env : CustomersEnv :=
  { customersResp :=
      .ok { customers? := some [.cid 101, .cid 102], total? := some 2 },
    profile := fun c =>
      if c = .cid 101 then .ok prof101 else .error "HTTP 500" }

/-- Witness for C6 at the concrete scenario environment. -/
theorem claim_C6_witness :
    (c6Env.customersResp =
       .ok { customers? := some [.cid 101, .cid 102], total? := some 2 } ∧
     c6Env.profile (.cid 101) = .ok prof101 ∧
     c6Env.profile (.cid 102) = .error "HTTP 500") ∧
    ((load_customers c6Env initState).1.customers = [cust101] ∧
     (load_customers c6Env initState).1.total_customers = 2 ∧
     (load_customers c6Env initState).1.error_message = "" ∧
     (load_customers c6Env initState).2 =
       [Request.getCustomers 1 50, Request.getCustomerProfile (.cid 101),
        Request.getCustomerProfile (.cid 102)]) :=
  ⟨⟨rfl, rfl, rfl⟩,
   claim_C6 initState c6Env prof101 prof101 "HTTP 500" cust101 rfl rfl rfl
     rfl (by decide) (by decide)⟩

/-- C2: in a fan-out batch where exactly one of the N concurrent calls
fails and the rest succeed (and the successful payloads pass model
validation), the operation assigns each successful result to its published
field (the metadata field receiving the forced version override), leaves
the failed call's published field unchanged, and ends with an empty
`error_message` — one conjunct per choice of the failing call, for
`load_dashboard_data` (N=4), `load_fraud_data` (N=2) and
`load_stats_data` (N=3). -/
theorem claim_C2 (s : AppState) (denv : DashboardEnv) (fenv : FraudEnv)
    (stenv : StatsEnv)
    (hcd : dashCacheHit denv s = false)
    (hcf : fraudCacheHit fenv s = false)
    (hcs : statsCacheHit stenv s = false) :
    (∀ e rtxs txs hd hm, denv.statsOverview = .error e →
      denv.recentTransactions = .ok rtxs →
      parseAll Transaction.ofDict? rtxs = some txs →
      denv.health = .ok hd → denv.metadata = .ok hm →
      (load_dashboard_data denv s).1.stats_overview = s.stats_overview ∧
      (load_dashboard_data denv s).1.recent_transactions = txs ∧
      (load_dashboard_data denv s).1.system_health = hd ∧
      (load_dashboard_data denv s).1.system_metadata =
        Dict.set hm "version" (.str "1.1.0") ∧
      (load_dashboard_data denv s).1.error_message = "") ∧
    (∀ v e hd hm, denv.statsOverview = .ok v →
      denv.recentTransactions = .error e →
      denv.health = .ok hd → denv.metadata = .ok hm →
      (load_dashboard_data denv s).1.stats_overview = v ∧
      (load_dashboard_data denv s).1.recent_transactions =
        s.recent_transactions ∧
      (load_dashboard_data denv s).1.system_health = hd ∧
      (load_dashboard_data denv s).1.system_metadata =
        Dict.set hm "version" (.str "1.1.0") ∧
      (load_dashboard_data denv s).1.error_message = "") ∧
    (∀ v rtxs txs e hm, denv.statsOverview = .ok v →
      denv.recentTransactions = .ok rtxs →
      parseAll Transaction.ofDict? rtxs = some txs →
      denv.health = .error e → denv.metadata = .ok hm →
      (load_dashboard_data denv s).1.stats_overview = v ∧
      (load_dashboard_data denv s).1.recent_transactions = txs ∧
      (load_dashboard_data denv s).1.system_health = s.system_health ∧
      (load_dashboard_data denv s).1.system_metadata =
        Dict.set hm "version" (.str "1.1.0") ∧
      (load_dashboard_data denv s).1.error_message = "") ∧
    (∀ v rtxs txs hd e, denv.statsOverview = .ok v →
      denv.recentTransactions = .ok rtxs →
      parseAll Transaction.ofDict? rtxs = some txs →
      denv.health = .ok hd → denv.metadata = .error e →
      (load_dashboard_data denv s).1.stats_overview = v ∧
      (load_dashboard_data denv s).1.recent_transactions = txs ∧
      (load_dashboard_data denv s).1.system_health = hd ∧
      (load_dashboard_data denv s).1.system_metadata = s.system_metadata ∧
      (load_dashboard_data denv s).1.error_message = "") ∧
    (∀ e items stats, fenv.fraudSummary = .error e →
      fenv.fraudByType = .ok items →
      parseAll FraudStat.ofDict? items = some stats →
      (load_fraud_data fenv s).1.fraud_summary = s.fraud_summary ∧
      (load_fraud_data fenv s).1.fraud_by_type = stats ∧
      (load_fraud_data fenv s).1.error_message = "") ∧
    (∀ v e, fenv.fraudSummary = .ok v → fenv.fraudByType = .error e →
      (load_fraud_data fenv s).1.fraud_summary = v ∧
      (load_fraud_data fenv s).1.fraud_by_type = s.fraud_by_type ∧
      (load_fraud_data fenv s).1.error_message = "") ∧
    (∀ e bitems bts ditems dss, stenv.amountDistribution = .error e →
      stenv.statsByType = .ok bitems →
      parseAll TypeStat.ofDict? bitems = some bts →
      stenv.dailyStats = .ok ditems →
      parseAll DailyStat.ofDict? ditems = some dss →
      (load_stats_data stenv s).1.amount_distribution =
        s.amount_distribution ∧
      (load_stats_data stenv s).1.stats_by_type = bts ∧
      (load_stats_data stenv s).1.daily_stats = dss ∧
      (load_stats_data stenv s).1.error_message = "") ∧
    (∀ v e ditems dss, stenv.amountDistribution = .ok v →
      stenv.statsByType = .error e →
      stenv.dailyStats = .ok ditems →
      parseAll DailyStat.ofDict? ditems = some dss →
      (load_stats_data stenv s).1.amount_distribution = v ∧
      (load_stats_data stenv s).1.stats_by_type = s.stats_by_type ∧
      (load_stats_data stenv s).1.daily_stats = dss ∧
      (load_stats_data stenv s).1.error_message = "") ∧
    (∀ v bitems bts e, stenv.amountDistribution = .ok v →
      stenv.statsByType = .ok bitems →
      parseAll TypeStat.ofDict? bitems = some bts →
      stenv.dailyStats = .error e →
      (load_stats_data stenv s).1.amount_distribution = v ∧
      (load_stats_data stenv s).1.stats_by_type = bts ∧
      (load_stats_data stenv s).1.daily_stats = s.daily_stats ∧
      (load_stats_data stenv s).1.error_message = "") := by
  obtain ⟨dnow, dso, drt, dhe, dme⟩ := denv
  obtain ⟨fnow, ffs, fbt, fenh⟩ := fenv
  obtain ⟨snow, sad, sbt, sds⟩ := stenv
  refine ⟨?_, ?_, ?_, ?_, ?_, ?_, ?_, ?_, ?_⟩
  · intro e rtxs txs hd hm h1 h2 hp h3 h4
    simp only at h1 h2 h3 h4
    subst h1; subst h2; subst h3; subst h4
    simp [load_dashboard_data, hcd, dashBody, dashAfter, hp,
      update_cache_timestamp]
  · intro v e hd hm h1 h2 h3 h4
    simp only at h1 h2 h3 h4
    subst h1; subst h2; subst h3; subst h4
    simp [load_dashboard_data, hcd, dashBody, dashAfter,
      update_cache_timestamp]
  · intro v rtxs txs e hm h1 h2 hp h3 h4
    simp only at h1 h2 h3 h4
    subst h1; subst h2; subst h3; subst h4
    simp [load_dashboard_data, hcd, dashBody, dashAfter, hp,
      update_cache_timestamp]
  · intro v rtxs txs hd e h1 h2 hp h3 h4
    simp only at h1 h2 h3 h4
    subst h1; subst h2; subst h3; subst h4
    simp [load_dashboard_data, hcd, dashBody, dashAfter, hp,
      update_cache_timestamp]
  · intro e items stats h1 h2 hp
    simp only at h1 h2
    subst h1; subst h2
    cases fenh <;>
      simp [load_fraud_data, hcf, hp, update_cache_timestamp,
        updateOptions_fraud_summary, updateOptions_fraud_by_type,
        updateOptions_error_message]
  · intro v e h1 h2
    simp only at h1 h2
    subst h1; subst h2
    cases fenh <;>
      simp [load_fraud_data, hcf, update_cache_timestamp,
        updateOptions_fraud_summary, updateOptions_fraud_by_type,
        updateOptions_error_message]
  · intro e bitems bts ditems dss h1 h2 hp1 h3 hp2
    simp only at h1 h2 h3
    subst h1; subst h2; subst h3
    simp [load_stats_data, hcs, hp1, hp2, update_cache_timestamp,
      Bind.bind, Except.bind, Pure.pure, Except.pure]
  · intro v e ditems dss h1 h2 h3 hp2
    simp only at h1 h2 h3
    subst h1; subst h2; subst h3
    simp [load_stats_data, hcs, hp2, update_cache_timestamp,
      Bind.bind, Except.bind, Pure.pure, Except.pure]
  · intro v bitems bts e h1 h2 hp1 h3
    simp only at h1 h2 h3
    subst h1; subst h2; subst h3
    simp [load_stats_data, hcs, hp1, update_cache_timestamp,
      Bind.bind, Except.bind, Pure.pure, Except.pure]

/-- Raw transaction record that passes `Transaction` validation as
`someTx`. -/
def okTxDict : Dict :=
  [("id", Val.str "t1"), ("client_id", Val.num 7),
   ("date", Val.str "2024-01-01"), ("amount", Val.num 10),
   ("isFraud", Val.num 0)]

/-- Concrete health payload. -/
def healthDict : Dict := [("status", Val.str "ok")]

/-- Concrete stats-overview payload. -/
def statsOvDict : Dict := [("total_transactions", Val.num 5)]

/-- Concrete metadata payload (version later force-overridden). -/
def metaDict : Dict := [("version", Val.str "1.0.0")]

/-- Raw fraud-stat record and its parsed form. -/
def okFraudStatDict : Dict :=
  [("type", Val.str "Swipe Transaction"), ("total_count", Val.num 3),
   ("fraud_count", Val.num 1), ("fraud_rate", Val.num 0)]

/-- Parsed `okFraudStatDict`. -/
def someFraudStat : FraudStat :=
  { type := "Swipe Transaction", total_count := 3, fraud_count := 1,
    fraud_rate := 0 }

/-- Concrete fraud-summary payload. -/
def fraudSummaryDict : Dict := [("total_fraud", Val.num 2)]

/-- Raw type-stat record and its parsed form. -/
def okTypeStatDict : Dict :=
  [("type", Val.str "Swipe Transaction"), ("count", Val.num 3),
   ("total_amount", Val.num 30), ("avg_amount", Val.num 10)]

/-- Parsed `okTypeStatDict`. -/
def someTypeStat : TypeStat :=
  { type := "Swipe Transaction", count := 3, total_amount := 30,
    avg_amount := 10, fraud_rate := 0 }

/-- Raw daily-stat record and its parsed form. -/
def okDailyStatDict : Dict :=
  [("step", Val.str "0"), ("count", Val.num 2),
   ("total_amount", Val.num 20), ("fraud_count", Val.num 0)]

/-- Parsed `okDailyStatDict`. -/
def someDailyStat : DailyStat :=
  { step := "0", count := 2, total_amount := 20, fraud_count := 0,
    avg_amount := 0 }

/-- Concrete amount-distribution payload. -/
def amountDistDict : Dict := [("bins", Val.num 10)]

/-- Dashboard environments in which exactly one of the four calls fails. -/
def dW1 : DashboardEnv :=
  { now := 100, statsOverview := .error "boom",
    recentTransactions := .ok [okTxDict], health := .ok healthDict,
    metadata := .ok metaDict }

/-- Dashboard environment: only the recent-transactions call fails. -/
def dW2 : DashboardEnv :=
  { now := 100, statsOverview := .ok statsOvDict,
    recentTransactions := .error "boom", health := .ok healthDict,
    metadata := .ok metaDict }

/-- Dashboard environment: only the health call fails. -/
def dW3 : DashboardEnv :=
  { now := 100, statsOverview := .ok statsOvDict,
    recentTransactions := .ok [okTxDict], health := .error "boom",
    metadata := .ok metaDict }

/-- Dashboard environment: only the metadata call fails. -/
def dW4 : DashboardEnv :=
  { now := 100, statsOverview := .ok statsOvDict,
    recentTransactions := .ok [okTxDict], health := .ok healthDict,
    metadata := .error "boom" }

/-- Fraud environment: only the summary call fails. -/
def fW1 : FraudEnv :=
  { now := 100, fraudSummary := .error "boom",
    fraudByType := .ok [okFraudStatDict], txEnhancement := .error "x" }

/-- Fraud environment: only the by-type call fails. -/
def fW2 : FraudEnv :=
  { now := 100, fraudSummary := .ok fraudSummaryDict,
    fraudByType := .error "boom", txEnhancement := .error "x" }

/-- Stats environment: only the amount-distribution call fails. -/
def sW1 : StatsEnv :=
  { now := 100, amountDistribution := .error "boom",
    statsByType := .ok [okTypeStatDict],
    dailyStats := .ok [okDailyStatDict] }

/-- Stats environment: only the by-type call fails. -/
def sW2 : StatsEnv :=
  { now := 100, amountDistribution := .ok amountDistDict,
    statsByType := .error "boom", dailyStats := .ok [okDailyStatDict] }

/-- Stats environment: only the daily call fails. -/
def sW3 : StatsEnv :=
  { now := 100, amountDistribution := .ok amountDistDict,
    statsByType := .ok [okTypeStatDict], dailyStats := .error "boom" }

/-- Witness for C2: each single-failure scenario evaluated at the initial
state. -/
theorem claim_C2_witness :
    ((load_dashboard_data dW1 initState).1.stats_overview =
       initState.stats_overview ∧
     (load_dashboard_data dW1 initState).1.recent_transactions = [someTx] ∧
     (load_dashboard_data dW1 initState).1.system_health = healthDict ∧
     (load_dashboard_data dW1 initState).1.system_metadata =
       Dict.set metaDict "version" (.str "1.1.0") ∧
     (load_dashboard_data dW1 initState).1.error_message = "") ∧
    ((load_dashboard_data dW2 initState).1.stats_overview = statsOvDict ∧
     (load_dashboard_data dW2 initState).1.recent_transactions =
       initState.recent_transactions ∧
     (load_dashboard_data dW2 initState).1.system_health = healthDict ∧
     (load_dashboard_data dW2 initState).1.system_metadata =
       Dict.set metaDict "version" (.str "1.1.0") ∧
     (load_dashboard_data dW2 initState).1.error_message = "") ∧
    ((load_dashboard_data dW3 initState).1.stats_overview = statsOvDict ∧
     (load_dashboard_data dW3 initState).1.recent_transactions = [someTx] ∧
     (load_dashboard_data dW3 initState).1.system_health =
       initState.system_health ∧
     (load_dashboard_data dW3 initState).1.system_metadata =
       Dict.set metaDict "version" (.str "1.1.0") ∧
     (load_dashboard_data dW3 initState).1.error_message = "") ∧
    ((load_dashboard_data dW4 initState).1.stats_overview = statsOvDict ∧
     (load_dashboard_data dW4 initState).1.recent_transactions = [someTx] ∧
     (load_dashboard_data dW4 initState).1.system_health = healthDict ∧
     (load_dashboard_data dW4 initState).1.system_metadata =
       initState.system_metadata ∧
     (load_dashboard_data dW4 initState).1.error_message = "") ∧
    ((load_fraud_data fW1 initState).1.fraud_summary =
       initState.fraud_summary ∧
     (load_fraud_data fW1 initState).1.fraud_by_type = [someFraudStat] ∧
     (load_fraud_data fW1 initState).1.error_message = "") ∧
    ((load_fraud_data fW2 initState).1.fraud_summary = fraudSummaryDict ∧
     (load_fraud_data fW2 initState).1.fraud_by_type =
       initState.fraud_by_type ∧
     (load_fraud_data fW2 initState).1.error_message = "") ∧
    ((load_stats_data sW1 initState).1.amount_distribution =
       initState.amount_distribution ∧
     (load_stats_data sW1 initState).1.stats_by_type = [someTypeStat] ∧
     (load_stats_data sW1 initState).1.daily_stats = [someDailyStat] ∧
     (load_stats_data sW1 initState).1.error_message = "") ∧
    ((load_stats_data sW2 initState).1.amount_distribution =
       amountDistDict ∧
     (load_stats_data sW2 initState).1.stats_by_type =
       initState.stats_by_type ∧
     (load_stats_data sW2 initState).1.daily_stats = [someDailyStat] ∧
     (load_stats_data sW2 initState).1.error_message = "") ∧
    ((load_stats_data sW3 initState).1.amount_distribution =
       amountDistDict ∧
     (load_stats_data sW3 initState).1.stats_by_type = [someTypeStat] ∧
     (load_stats_data sW3 initState).1.daily_stats =
       initState.daily_stats ∧
     (load_stats_data sW3 initState).1.error_message = "") :=
  ⟨(claim_C2 initState dW1 fW1 sW1 (by decide) (by decide) (by decide)).1
     "boom" [okTxDict] [someTx] healthDict metaDict rfl rfl (by decide)
     rfl rfl,
   (claim_C2 initState dW2 fW1 sW1 (by decide) (by decide)
       (by decide)).2.1 statsOvDict "boom" healthDict metaDict rfl rfl rfl
     rfl,
   (claim_C2 initState dW3 fW1 sW1 (by decide) (by decide)
       (by decide)).2.2.1 statsOvDict [okTxDict] [someTx] "boom" metaDict
     rfl rfl (by decide) rfl rfl,
   (claim_C2 initState dW4 fW1 sW1 (by decide) (by decide)
       (by decide)).2.2.2.1 statsOvDict [okTxDict] [someTx] healthDict
     "boom" rfl rfl (by decide) rfl rfl,
   (claim_C2 initState dW1 fW1 sW1 (by decide) (by decide)
       (by decide)).2.2.2.2.1 "boom" [okFraudStatDict] [someFraudStat] rfl
     rfl (by decide),
   (claim_C2 initState dW1 fW2 sW1 (by decide) (by decide)
       (by decide)).2.2.2.2.2.1 fraudSummaryDict "boom" rfl rfl,
   (claim_C2 initState dW1 fW1 sW1 (by decide) (by decide)
       (by decide)).2.2.2.2.2.2.1 "boom" [okTypeStatDict] [someTypeStat]
     [okDailyStatDict] [someDailyStat] rfl rfl (by decide) rfl (by decide),
   (claim_C2 initState dW1 fW1 sW2 (by decide) (by decide)
       (by decide)).2.2.2.2.2.2.2.1 amountDistDict "boom" [okDailyStatDict]
     [someDailyStat] rfl rfl rfl (by decide),
   (claim_C2 initState dW1 fW1 sW3 (by decide) (by decide)
       (by decide)).2.2.2.2.2.2.2.2 amountDistDict [okTypeStatDict]
     [someTypeStat] "boom" rfl rfl (by decide) rfl⟩
